import Mathlib

/-!
Verification of the user-interviews web application core

Shallow embedding of the payment-gated job lifecycle controller, the
checkout boundary, the export encoder route and the export transport /
file-delivery utilities of the `user-interviews` repository, together
with proofs of the specified properties.

Sources embedded:
* `src/components/interview-table.tsx` (`InterviewTable`, `startInterviews`,
  the SWR start hook and the status-polling hook)
* `src/app/api/checkout/route.ts` (`POST`, `DEFAULT_CHECKOUT_VALUES`)
* `src/app/api/tables/[table]/route.ts` (`validateTableName`,
  `validateFormat`, `validateRequestBody`, `POST`)
* `src/lib/export-utils.ts` (`extractFilenameFromHeader`, `downloadBlob`,
  `openBlobInNewTab`, `handleFileExport`, `makeExportRequest`)
* `src/lib/validation.ts` (`validateInterviewCount`)
* `src/constants/app.ts` (`EXPORT_FORMATS`, `TOAST_MESSAGES`,
  `JOB_STATUS_POLLING_INTERVAL`)
-/

/-! ## Data model (`src/types`) -/

/-- An interview record (`src/types/interview.ts`): role, industry and five
question texts. -/
structure Interview where
  role : String
  industry : String
  question_one : String
  question_two : String
  question_three : String
  question_four : String
  question_five : String
  deriving DecidableEq, Repr

/-- Status tag of a generation job (`src/types/job.ts`). -/
inductive JobStatusKind where
  | pending
  | completed
  | failed
  deriving DecidableEq, Repr

/-- Model of `JobStatus` (`src/types/job.ts`): status plus the optional `data`,
`error` and `progress` fields. -/
structure JobStatus where
  status : JobStatusKind
  data : Option (List Interview) := none
  error : Option String := none
  progress : Option Nat := none
  deriving DecidableEq, Repr

/-! ## Toast messages (`src/constants/app.ts`, `TOAST_MESSAGES`) -/

def SUCCESS_TITLE : String := "Success!"

def SUCCESS_DESCRIPTION : String := "Your interviews have been generated."

def ERROR_TITLE : String := "Error"

def EXPORT_ERROR_TITLE : String := "Export Error"

/-- Fixed polling period for job status checks, in milliseconds
(`JOB_STATUS_POLLING_INTERVAL` in `src/constants/app.ts`). -/
def JOB_STATUS_POLLING_INTERVAL : Nat := 15000

/-- A toast notification as issued through `useToast` in
`interview-table.tsx`.  The description is optional because the failed
branch passes `data.error`, which may be absent. -/
structure Toast where
  title : String
  description : Option String
  variant : String
  deriving DecidableEq, Repr

/-- The one-shot success toast emitted on job completion
(`interview-table.tsx`, status-poll `onSuccess`, completed branch). -/
def successToast : Toast :=
  { title := SUCCESS_TITLE, description := some SUCCESS_DESCRIPTION, variant := "default" }

/-- The one-shot error toast emitted on job failure, carrying the
server-provided message (`interview-table.tsx`, failed branch). -/
def errorToast (msg : Option String) : Toast :=
  { title := ERROR_TITLE, description := msg, variant := "destructive" }

/-! ## Job Lifecycle Controller (`src/components/interview-table.tsx`)

The controller state combines the global `AppProvider` state
(`interviews`, `interviewing`), the component-local `jobId`, and the SWR
cache of start keys.  The start hook is
`useSWR(sessionId ? ["start-interviews", sessionId] : null, fetcher,
{revalidateOnFocus: false, revalidateOnReconnect: false})`: with both
revalidation triggers disabled, SWR invokes the fetcher at most once per
distinct key, so the set of keys already fetched is part of the state. -/

/-- Per-tab controller state: `interviews` and `interviewing` from
`AppProvider`, the local `jobId`, and the SWR cache of session tokens for
which the start fetcher has already run. -/
structure ControllerState where
  interviews : List Interview
  interviewing : Bool
  jobId : Option String
  startedTokens : List String
  deriving DecidableEq, Repr

/-- Initial state: no interviews, not interviewing, no job, empty SWR
cache (`AppProvider` initial `useState` values). -/
def initialState : ControllerState :=
  { interviews := [], interviewing := false, jobId := none, startedTokens := [] }

/-- One supply of a payment-return session token to the start hook of
`InterviewTable`.  If the SWR key `["start-interviews", token]` is already
cached, the fetcher is not invoked again (revalidation is disabled) and
nothing happens; otherwise the fetcher runs once: it sets
`interviewing := true`, issues the `startInterviews` call, and stores the
returned job id.  The second component counts job-start calls issued. -/
def supplyToken (s : ControllerState) (token jobIdFromServer : String) :
    ControllerState × Nat :=
  if token ∈ s.startedTokens then (s, 0)
  else
    ({ s with
        startedTokens := token :: s.startedTokens
        interviewing := true
        jobId := some jobIdFromServer }, 1)

/-- Supplying a sequence of tokens (re-renders / reconnects re-supply the
same token); returns the final state and the total number of job-start
calls issued. -/
def supplyTokens (s : ControllerState) (tokens : List String)
    (jobIdFromServer : String) : ControllerState × Nat :=
  match tokens with
  | [] => (s, 0)
  | t :: rest =>
    let p := supplyToken s t jobIdFromServer
    let q := supplyTokens p.1 rest jobIdFromServer
    (q.1, p.2 + q.2)

/-- The `onSuccess` handler of the status-polling SWR hook in
`InterviewTable`: on `completed` it replaces the interviews with
`data.data || []`, sets `interviewing` false, clears the job id and emits
the success toast; on `failed` it sets `interviewing` false, clears the
job id and emits the error toast with `data.error`; on `pending` it does
nothing (polling continues). -/
def handleStatusSuccess (s : ControllerState) (d : JobStatus) :
    ControllerState × List Toast :=
  match d.status with
  | .completed =>
    ({ s with interviews := d.data.getD [], interviewing := false, jobId := none },
      [successToast])
  | .failed =>
    ({ s with interviewing := false, jobId := none }, [errorToast d.error])
  | .pending => (s, [])

/-- Processing a sequence of polled status responses.  The status hook's
SWR key is `jobId ? url : null`, so when `jobId` is cleared no further
request is issued and the remaining responses are never observed. -/
def pollSteps (s : ControllerState) (resps : List JobStatus) :
    ControllerState × List Toast :=
  match resps with
  | [] => (s, [])
  | d :: rest =>
    match s.jobId with
    | none => (s, [])
    | some _ =>
      let p := handleStatusSuccess s d
      let q := pollSteps p.1 rest
      (q.1, p.2 ++ q.2)

/-! ## Checkout boundary (`src/app/api/checkout/route.ts`)

The request body fields are modelled as plain strings / integers, with the
empty string standing for a missing-or-empty text field and `0` standing
for a missing-or-zero `interviews` field: both are falsy in JavaScript,
which is exactly what the `||` defaulting in the source tests. -/

/-- Model of `CheckoutRequestBody` (`src/app/api/checkout/route.ts`). -/
structure CheckoutRequestBody where
  role : String
  industry : String
  range : String
  employee_range : String
  interviews : Int
  returnUrl : String
  deriving DecidableEq, Repr

/-- The metadata object stored on the created Stripe checkout session. -/
structure CheckoutMetadata where
  role : String
  industry : String
  range : String
  employee_range : String
  country : String
  processed : String
  deriving DecidableEq, Repr

/-- The `DEFAULT_CHECKOUT_VALUES` constant (`src/app/api/checkout/route.ts`). -/
def DEFAULT_CHECKOUT_VALUES : CheckoutMetadata :=
  { role := "Software Engineer"
    industry := "Technology, Information and Internet"
    range := "2-7"
    employee_range := "100-1000"
    country := "USA"
    processed := "no" }

/-- The checkout session as far as this app observes it: the line-item
quantity and the metadata recorded for post-payment processing. -/
structure CheckoutSession where
  quantity : Int
  metadata : CheckoutMetadata
  deriving DecidableEq, Repr

/-- The `POST` handler of `src/app/api/checkout/route.ts`, given a parsed
request body and a configured environment (the two environment-variable
guards at the top of the handler are assumed satisfied).  Mirrors the
source: reject a missing `returnUrl`; default a falsy `interviews` count
to 5; reject a count below 1 or above 50; otherwise create the session
with each metadata field defaulted via `||` when falsy. -/
def checkoutPOST (body : CheckoutRequestBody) : Except String CheckoutSession :=
  if body.returnUrl = "" then
    .error "Return URL is required"
  else
    let interviewCount : Int := if body.interviews = 0 then 5 else body.interviews
    if interviewCount < 1 ∨ interviewCount > 50 then
      .error "Interview count must be between 1 and 50"
    else
      .ok
        { quantity := interviewCount
          metadata :=
            { role := if body.role = "" then DEFAULT_CHECKOUT_VALUES.role else body.role
              industry :=
                if body.industry = "" then DEFAULT_CHECKOUT_VALUES.industry else body.industry
              range := if body.range = "" then DEFAULT_CHECKOUT_VALUES.range else body.range
              employee_range :=
                if body.employee_range = "" then DEFAULT_CHECKOUT_VALUES.employee_range
                else body.employee_range
              country := DEFAULT_CHECKOUT_VALUES.country
              processed := DEFAULT_CHECKOUT_VALUES.processed } }

/-- Client-side interview-count validation
(`validateInterviewCount` in `src/lib/validation.ts`). -/
def validateInterviewCount (count min max : Int) : Except String Unit :=
  if count < min then .error "Minimum interviews required"
  else if count > max then .error "Maximum interviews allowed"
  else .ok ()

/-! ## Export encoder route (`src/app/api/tables/[table]/route.ts`) -/

/-- The list of valid format strings, in the order of the
`EXPORT_FORMATS` object of the route (`Object.values`). -/
def validFormatStrings : List String := ["csv", "txt", "xlsx", "json", "html"]

/-- The `CONTENT_TYPES` table of the route. -/
def contentTypeOf (format : String) : String :=
  if format = "csv" then "text/csv"
  else if format = "txt" then "text/plain"
  else if format = "xlsx" then "application/vnd.ms-excel"
  else if format = "json" then "application/json"
  else "text/html"

/-- The `VALID_TABLES` list of the route. -/
def VALID_TABLES : List String := ["interviews"]

/-- Model of `validateTableName`: an empty name and a name outside `VALID_TABLES`
both raise. -/
def validateTableName (table : String) : Except String Unit :=
  if table = "" then .error "Table name is required"
  else if table ∈ VALID_TABLES then .ok ()
  else .error "Table not found"

/-- Model of `validateFormat`: the source tests `!format`, which is true
both for an absent parameter (null) and for a present but empty value
(`?format=` yields the empty string, which is falsy), and silently
defaults either to `html`; a nonempty unrecognized value raises. -/
def validateFormat (format : Option String) : Except String String :=
  match format with
  | none => .ok "html"
  | some f =>
    if f = "" then .ok "html"
    else if f ∈ validFormatStrings then .ok f
    else .error "Unsupported format"

/-- The parsed export request body as the route distinguishes it:
not an object, an object without a truthy `interviews` field, an
`interviews` field that is not an array, or an actual record list. -/
inductive ExportBody where
  | notObject
  | noInterviews
  | notArray
  | interviews (records : List Interview)
  deriving DecidableEq, Repr

/-- Model of `validateRequestBody`: each malformed shape raises its own message;
an empty list raises the at-least-one-record validation error. -/
def validateRequestBody : ExportBody → Except String (List Interview)
  | .notObject => .error "Request body is required"
  | .noInterviews => .error "No interview data provided"
  | .notArray => .error "Interview data must be an array"
  | .interviews records =>
    if records.length = 0 then
      .error "At least one interview is required for export"
    else .ok records

/-! ### The JSON document model

`Response.json(interviewData)` serializes the record list as a JSON array
of objects; the round-trip property is stated on the JSON document. -/

/-- A JSON value (only the constructors this payload uses). -/
inductive Json where
  | str (s : String)
  | arr (xs : List Json)
  | obj (fields : List (String × Json))

/-- JSON serialization of one interview record: an object with the seven
string fields in declaration order. -/
def interviewToJson (i : Interview) : Json :=
  .obj
    [("role", .str i.role), ("industry", .str i.industry),
      ("question_one", .str i.question_one), ("question_two", .str i.question_two),
      ("question_three", .str i.question_three), ("question_four", .str i.question_four),
      ("question_five", .str i.question_five)]

/-- JSON serialization of the exported record list: an array of objects,
in input order (`Response.json(interviewData)`). -/
def interviewsToJson (records : List Interview) : Json :=
  .arr (records.map interviewToJson)

/-- Read a string-valued field from a JSON object field list. -/
def getStrField (fields : List (String × Json)) (key : String) : Option String :=
  match fields.lookup key with
  | some (.str s) => some s
  | _ => none

/-- Parse one interview record back from JSON. -/
def interviewFromJson (j : Json) : Option Interview :=
  match j with
  | .obj fields => do
    let role ← getStrField fields "role"
    let industry ← getStrField fields "industry"
    let q1 ← getStrField fields "question_one"
    let q2 ← getStrField fields "question_two"
    let q3 ← getStrField fields "question_three"
    let q4 ← getStrField fields "question_four"
    let q5 ← getStrField fields "question_five"
    pure ⟨role, industry, q1, q2, q3, q4, q5⟩
  | _ => none

/-- Parse a list of interview records from a list of JSON values. -/
def interviewsFromJsonList : List Json → Option (List Interview)
  | [] => some []
  | j :: js => do
    let i ← interviewFromJson j
    let rest ← interviewsFromJsonList js
    pure (i :: rest)

/-- Parse the exported record list back from the JSON response body. -/
def interviewsFromJson (j : Json) : Option (List Interview) :=
  match j with
  | .arr js => interviewsFromJsonList js
  | _ => none

/-- The response payload, tagged by which encoder produced it.  The
text/binary renderings themselves are the external XLSX library's output
and stay abstract; the JSON branch is `Response.json(interviewData)`,
whose document is fully determined. -/
inductive ExportPayload where
  | csvText (records : List Interview)
  | txtText (records : List Interview)
  | xlsxBinary (records : List Interview)
  | jsonBody (doc : Json)
  | htmlText (records : List Interview)

/-- A successful export response: status, content type, optional
`Content-Disposition` header, and payload. -/
structure ExportResponse where
  status : Nat
  contentType : String
  contentDisposition : Option String
  payload : ExportPayload

/-- Result of the export route: a response, or the catch-block's JSON
error body with its HTTP status. -/
inductive RouteResult where
  | ok (resp : ExportResponse)
  | err (status : Nat) (message : String)

/-- The `POST` handler of `src/app/api/tables/[table]/route.ts`:
validate the table name, then the format, then the body; then switch on
the format.  Every raised `Error` is caught and returned as a status-400
JSON error body carrying the message. -/
def tablesPOST (table : String) (formatParam : Option String)
    (body : ExportBody) : RouteResult :=
  let run : Except String ExportResponse := do
    let _ ← validateTableName table
    let format ← validateFormat formatParam
    let interviewData ← validateRequestBody body
    if format = "csv" then
      pure
        { status := 200, contentType := contentTypeOf "csv"
          contentDisposition := some "attachment; filename=\"Interviews.csv\""
          payload := .csvText interviewData }
    else if format = "txt" then
      pure
        { status := 200, contentType := contentTypeOf "txt"
          contentDisposition := some "attachment; filename=\"Interviews.txt\""
          payload := .txtText interviewData }
    else if format = "xlsx" then
      pure
        { status := 200, contentType := contentTypeOf "xlsx"
          contentDisposition := some "attachment; filename=\"Interviews.xlsx\""
          payload := .xlsxBinary interviewData }
    else if format = "json" then
      pure
        { status := 200, contentType := contentTypeOf "json"
          contentDisposition := none
          payload := .jsonBody (interviewsToJson interviewData) }
    else
      pure
        { status := 200, contentType := contentTypeOf "html"
          contentDisposition := none
          payload := .htmlText interviewData }
  match run with
  | .ok resp => .ok resp
  | .error msg => .err 400 msg

/-! ## Export transport (`src/lib/export-utils.ts`) -/

/-- The byte payload of an export response, as the client handles it. -/
abbrev Blob := String

/-- The transport-level view of an export response: the `ok` flag and
`status` of the fetch response, the optional `Content-Disposition`
header, and the body blob. -/
structure HttpResponse where
  ok : Bool
  status : Nat
  contentDisposition : Option String
  blob : Blob
  deriving DecidableEq, Repr

/-- The double-quote character of the filename pattern. -/
def dquote : Char := Char.ofNat 34

/-- The literal part of the fixed regex /filename="(.+)"/ used by
`extractFilenameFromHeader`. -/
def filenamePat : List Char :=
  ['f', 'i', 'l', 'e', 'n', 'a', 'm', 'e', '=', dquote]

/-- Whether `pat` occurs at the start of `s`. -/
def isPrefList : List Char → List Char → Bool
  | [], _ => true
  | _ :: _, [] => false
  | p :: ps, c :: cs => p == c && isPrefList ps cs

/-- Attempt, at a match of the literal `filename="`, to close the regex
/filename="(.+)"/ on the remainder `r`: the greedy `.+` cannot cross a
newline and must capture at least one character, and with greedy
backtracking the closing quote is the last quote of the current line.
Returns the capture, or `none` when the pattern cannot close here (the
engine then resumes at the next starting position). -/
def closeCapture (r : List Char) : Option (List Char) :=
  let line := r.takeWhile (fun c => c ≠ '\n')
  match line.reverse.dropWhile (fun c => c ≠ dquote) with
  | _ :: cap => if cap.isEmpty then none else some cap.reverse
  | [] => none

/-- The `filenameRegex.exec` call for the fixed pattern /filename="(.+)"/: try
each start position left to right; where the literal occurs, close the
capture greedily; otherwise advance one character. -/
def execFilenameRegex : List Char → Option (List Char)
  | [] => none
  | c :: cs =>
    if isPrefList filenamePat (c :: cs) then
      match closeCapture (List.drop filenamePat.length (c :: cs)) with
      | some cap => some cap
      | none => execFilenameRegex cs
    else execFilenameRegex cs

/-- Model of `extractFilenameFromHeader` (`src/lib/export-utils.ts`): run the
fixed regex over the header value and return the capture, or the default
name when the regex does not match (the capture itself is never empty,
so the `||` fallback fires exactly on a failed match). -/
def extractFilenameFromHeader (contentDisposition : String)
    (defaultFileName : String) : String :=
  match execFilenameRegex contentDisposition.toList with
  | some cap => String.mk cap
  | none => defaultFileName

/-- Model of `makeExportRequest` (`src/lib/export-utils.ts`), applied to the
response of the export boundary: a non-ok response throws an error
carrying the HTTP status; otherwise the blob is returned together with
the filename extracted from the `Content-Disposition` header (an absent
header is read as the empty string, and the default name is
`Interview`). -/
def makeExportRequest (resp : HttpResponse) : Except String (Blob × String) :=
  if !resp.ok then
    .error ("Export failed with status: " ++ toString resp.status)
  else
    let contentDisposition := resp.contentDisposition.getD ""
    .ok (resp.blob, extractFilenameFromHeader contentDisposition "Interview")

/-! ## File delivery (`src/lib/export-utils.ts`)

The DOM/URL side effects are modelled as an ordered trace of effects;
the object URL is identified with the blob it was created from (each
helper creates exactly one URL). -/

/-- Observable effects of the file-delivery helpers, in program order. -/
inductive FileEffect where
  | createdObjectURL (blob : Blob)
  | openedNewTab (blob : Blob)
  | scheduledRevoke (blob : Blob) (delayMs : Nat)
  | clickedDownload (blob : Blob) (filename : String)
  | revokedObjectURL (blob : Blob)
  deriving DecidableEq, Repr

/-- Model of `downloadBlob`: create the object URL, trigger a save-as click under
the given filename, then revoke the URL immediately. -/
def downloadBlob (blob : Blob) (filename : String) : List FileEffect :=
  [.createdObjectURL blob, .clickedDownload blob filename, .revokedObjectURL blob]

/-- Model of `openBlobInNewTab`: create the object URL, open it in a new tab, and
schedule revocation of the URL after a fixed 1000 ms timeout. -/
def openBlobInNewTab (blob : Blob) : List FileEffect :=
  [.createdObjectURL blob, .openedNewTab blob, .scheduledRevoke blob 1000]

/-- Model of `handleFileExport`: dispatch on the caller-specified delivery method. -/
def handleFileExport (blob : Blob) (filename : String) (openInNewTab : Bool) :
    List FileEffect :=
  if openInNewTab then openBlobInNewTab blob else downloadBlob blob filename

/-- The `EXPORT_FORMATS` constant (`src/constants/app.ts`): the five export entries
with their routing paths and delivery methods. -/
structure ExportFormatEntry where
  label : String
  path : String
  newTab : Bool
  deriving DecidableEq, Repr

def EXPORT_FORMATS : List ExportFormatEntry :=
  [⟨"TXT", "/api/tables/interviews?format=txt", false⟩,
    ⟨"CSV", "/api/tables/interviews?format=csv", false⟩,
    ⟨"XLSX", "/api/tables/interviews?format=xlsx", false⟩,
    ⟨"JSON", "/api/tables/interviews?format=json", true⟩,
    ⟨"HTML", "/api/tables/interviews?format=html", true⟩]

/-! ## Sample data for concrete instantiations -/

/-- A concrete interview record used in concrete instantiations. -/
def sampleInterview (role industry : String) : Interview :=
  { role := role, industry := industry, question_one := "q1", question_two := "q2",
    question_three := "q3", question_four := "q4", question_five := "q5" }

/-! ## Job lifecycle theorems -/

/-- Once a token is in the SWR cache, further supplies of it are no-ops
and issue no job-start call. -/
theorem supplyTokens_replicate_cached (s : ControllerState) (t jid : String)
    (m : Nat) (h : t ∈ s.startedTokens) :
    supplyTokens s (List.replicate m t) jid = (s, 0) := by
  induction m with
  | zero => rfl
  | succ k ih => simp [List.replicate_succ, supplyTokens, supplyToken, h, ih]

/-- C1: for every payment-return session token, the controller issues
exactly one job-start call, even when the same token is supplied `n ≥ 1`
times (re-render/reconnect), and re-supplying a token that is already in
the start cache (as it is after completion) is a no-op, so the job is not
restarted. -/
theorem start_call_idempotent_per_token
    (s sdone : ControllerState) (t jid : String) (n : Nat)
    (hfresh : t ∉ s.startedTokens) (hn : 1 ≤ n)
    (hcached : t ∈ sdone.startedTokens) :
    (supplyTokens s (List.replicate n t) jid).2 = 1 ∧
    supplyToken sdone t jid = (sdone, 0) := by
  constructor
  · obtain ⟨k, rfl⟩ : ∃ k, n = k + 1 := ⟨n - 1, by omega⟩
    have hrun := supplyTokens_replicate_cached
      { s with
          startedTokens := t :: s.startedTokens
          interviewing := true
          jobId := some jid } t jid k (by simp)
    simp [List.replicate_succ, supplyTokens, supplyToken, hfresh, hrun]
  · simp [supplyToken, hcached]

/-- C1 witness: two supplies of the same fresh token from the initial
state issue one start call; a supply of an already-cached token (the
state after completion) issues none and leaves the state unchanged. -/
theorem start_call_idempotent_per_token_witness :
    (supplyTokens initialState (List.replicate 2 "cs_token") "job_1").2 = 1 ∧
    supplyToken
        { interviews := [], interviewing := false, jobId := none,
          startedTokens := ["cs_token"] } "cs_token" "job_1" =
      ({ interviews := [], interviewing := false, jobId := none,
          startedTokens := ["cs_token"] }, 0) :=
  start_call_idempotent_per_token initialState
    { interviews := [], interviewing := false, jobId := none,
      startedTokens := ["cs_token"] }
    "cs_token" "job_1" 2 (by simp [initialState]) (by omega) (by simp)

/-- C2: processing a `completed` status response replaces the interviews
with the result list (or `[]` when the response carries no data), sets
`interviewing` false, clears the job id (stopping polling) and emits
exactly one success toast; and the sequence
[pending 10, pending 55, completed [i1, i2]] ends with interviews
`[i1, i2]`, `interviewing` false and exactly one success toast. -/
theorem completed_terminal_behavior
    (s : ControllerState) (d : JobStatus) (j : String) (i1 i2 : Interview)
    (hjob : s.jobId = some j) (hdone : d.status = .completed) :
    handleStatusSuccess s d =
      ({ s with interviews := d.data.getD [], interviewing := false, jobId := none },
        [successToast]) ∧
    pollSteps s
        [{ status := .pending, progress := some 10 },
          { status := .pending, progress := some 55 },
          { status := .completed, data := some [i1, i2] }] =
      ({ s with interviews := [i1, i2], interviewing := false, jobId := none },
        [successToast]) := by
  constructor
  · simp [handleStatusSuccess, hdone]
  · simp [pollSteps, handleStatusSuccess, hjob]

/-- C2 witness: the completed branch and the three-step scenario at
concrete values. -/
theorem completed_terminal_behavior_witness :
    handleStatusSuccess
        { interviews := [], interviewing := true, jobId := some "job_1",
          startedTokens := ["cs_token"] }
        { status := .completed, data := some [sampleInterview "PM" "Tech"] } =
      ({ interviews := [sampleInterview "PM" "Tech"], interviewing := false,
          jobId := none, startedTokens := ["cs_token"] }, [successToast]) ∧
    pollSteps
        { interviews := [], interviewing := true, jobId := some "job_1",
          startedTokens := ["cs_token"] }
        [{ status := .pending, progress := some 10 },
          { status := .pending, progress := some 55 },
          { status := .completed,
            data := some [sampleInterview "PM" "Tech", sampleInterview "CTO" "Fin"] }] =
      ({ interviews := [sampleInterview "PM" "Tech", sampleInterview "CTO" "Fin"],
          interviewing := false, jobId := none, startedTokens := ["cs_token"] },
        [successToast]) :=
  completed_terminal_behavior
    { interviews := [], interviewing := true, jobId := some "job_1",
      startedTokens := ["cs_token"] }
    { status := .completed, data := some [sampleInterview "PM" "Tech"] }
    "job_1" (sampleInterview "PM" "Tech") (sampleInterview "CTO" "Fin") rfl rfl

/-- C3: processing a `failed` status response sets `interviewing` false,
clears the job id, emits exactly one error toast carrying the
server-provided message, and leaves the interviews unchanged; and the
sequence [pending 0, failed "quota exceeded"] ends with `interviewing`
false, interviews unchanged and exactly one error toast carrying
"quota exceeded". -/
theorem failed_terminal_behavior
    (s : ControllerState) (d : JobStatus) (j : String)
    (hjob : s.jobId = some j) (hfail : d.status = .failed) :
    handleStatusSuccess s d =
      ({ s with interviewing := false, jobId := none }, [errorToast d.error]) ∧
    (handleStatusSuccess s d).1.interviews = s.interviews ∧
    pollSteps s
        [{ status := .pending, progress := some 0 },
          { status := .failed, error := some "quota exceeded" }] =
      ({ s with interviewing := false, jobId := none },
        [errorToast (some "quota exceeded")]) := by
  refine ⟨?_, ?_, ?_⟩ <;> simp [pollSteps, handleStatusSuccess, hjob, hfail]

/-- C3 witness: the failed branch and the two-step scenario at concrete
values, with the interviews left untouched. -/
theorem failed_terminal_behavior_witness :
    handleStatusSuccess
        { interviews := [sampleInterview "PM" "Tech"], interviewing := true,
          jobId := some "job_1", startedTokens := ["cs_token"] }
        { status := .failed, error := some "quota exceeded" } =
      ({ interviews := [sampleInterview "PM" "Tech"], interviewing := false,
          jobId := none, startedTokens := ["cs_token"] },
        [errorToast (some "quota exceeded")]) ∧
    (handleStatusSuccess
        { interviews := [sampleInterview "PM" "Tech"], interviewing := true,
          jobId := some "job_1", startedTokens := ["cs_token"] }
        { status := .failed, error := some "quota exceeded" }).1.interviews =
      [sampleInterview "PM" "Tech"] ∧
    pollSteps
        { interviews := [sampleInterview "PM" "Tech"], interviewing := true,
          jobId := some "job_1", startedTokens := ["cs_token"] }
        [{ status := .pending, progress := some 0 },
          { status := .failed, error := some "quota exceeded" }] =
      ({ interviews := [sampleInterview "PM" "Tech"], interviewing := false,
          jobId := none, startedTokens := ["cs_token"] },
        [errorToast (some "quota exceeded")]) :=
  failed_terminal_behavior
    { interviews := [sampleInterview "PM" "Tech"], interviewing := true,
      jobId := some "job_1", startedTokens := ["cs_token"] }
    { status := .failed, error := some "quota exceeded" } "job_1" rfl rfl

/-! ## Checkout boundary theorems -/

/-- A concrete checkout request body with the given interview count. -/
def checkoutBody (count : Int) : CheckoutRequestBody :=
  { role := "PM", industry := "Tech", range := "2-7", employee_range := "100-1000",
    interviews := count, returnUrl := "http://localhost:3000" }

/-- C4 counterexample: 21 and 0 both lie outside [5,20], yet the payment
boundary accepts both requests instead of rejecting them (0, being
falsy, is silently replaced by the default count 5). -/
theorem checkout_out_of_range_accepted :
    ((21 : Int) < 5 ∨ (21 : Int) > 20) ∧ ((0 : Int) < 5 ∨ (0 : Int) > 20) ∧
    checkoutPOST (checkoutBody 21) =
      .ok { quantity := 21,
            metadata :=
              { role := "PM", industry := "Tech", range := "2-7",
                employee_range := "100-1000", country := "USA", processed := "no" } } ∧
    checkoutPOST (checkoutBody 0) =
      .ok { quantity := 5,
            metadata :=
              { role := "PM", industry := "Tech", range := "2-7",
                employee_range := "100-1000", country := "USA", processed := "no" } } := by
  refine ⟨by norm_num, by norm_num, rfl, rfl⟩

/-- C4 amended: with a nonempty return URL, the payment boundary rejects
a request on its own bound only: a nonzero desiredCount below 1 or above
50 raises the count error (0 is coerced to the default 5 and accepted,
and any value in [1,50] such as 21 is accepted); the [5,20] bound is
enforced only by the client-side `validateInterviewCount`, which errors
for every count outside [5,20]. -/
theorem checkout_count_bounds
    (body : CheckoutRequestBody) (n : Int)
    (hurl : body.returnUrl ≠ "")
    (hnz : body.interviews ≠ 0)
    (hout : body.interviews < 1 ∨ body.interviews > 50)
    (hn : n < 5 ∨ n > 20) :
    checkoutPOST body = .error "Interview count must be between 1 and 50" ∧
    ∃ msg, validateInterviewCount n 5 20 = .error msg := by
  constructor
  · simp [checkoutPOST, hurl, hnz, hout]
  · rcases hn with h | h
    · exact ⟨"Minimum interviews required", by simp [validateInterviewCount, h]⟩
    · have h5 : ¬ n < 5 := by omega
      exact ⟨"Maximum interviews allowed", by simp [validateInterviewCount, h5, h]⟩

/-- C4 amended witness: a count of 51 is rejected by the boundary, and a
count of 21 is rejected by the client-side validation. -/
theorem checkout_count_bounds_witness :
    checkoutPOST (checkoutBody 51) = .error "Interview count must be between 1 and 50" ∧
    ∃ msg, validateInterviewCount 21 5 20 = .error msg :=
  checkout_count_bounds (checkoutBody 51) 21 (by decide) (by decide)
    (by right; decide) (by norm_num)

/-- C10: whenever the checkout boundary creates a session, each profile
metadata field is the request value when that value is nonempty and the
fixed default otherwise, so every profile metadata field of the created
session is nonempty. -/
theorem checkout_metadata_defaults
    (body : CheckoutRequestBody) (session : CheckoutSession)
    (h : checkoutPOST body = .ok session) :
    session.metadata.role = (if body.role = "" then "Software Engineer" else body.role) ∧
    session.metadata.industry =
      (if body.industry = "" then "Technology, Information and Internet" else body.industry) ∧
    session.metadata.range = (if body.range = "" then "2-7" else body.range) ∧
    session.metadata.employee_range =
      (if body.employee_range = "" then "100-1000" else body.employee_range) ∧
    session.metadata.role ≠ "" ∧ session.metadata.industry ≠ "" ∧
    session.metadata.range ≠ "" ∧ session.metadata.employee_range ≠ "" := by
  unfold checkoutPOST at h
  split at h
  · simp at h
  · dsimp only at h
    split at h
    · rw [if_neg (by norm_num : ¬((5 : Int) < 1 ∨ (5 : Int) > 50))] at h
      injection h with h
      subst h
      refine ⟨rfl, rfl, rfl, rfl, ?_, ?_, ?_, ?_⟩ <;>
        · dsimp only
          split
          · decide
          · assumption
    · split at h
      · simp at h
      · injection h with h
        subst h
        refine ⟨rfl, rfl, rfl, rfl, ?_, ?_, ?_, ?_⟩ <;>
          · dsimp only
            split
            · decide
            · assumption

/-- A checkout request with every profile field empty. -/
def emptyProfileBody : CheckoutRequestBody :=
  { role := "", industry := "", range := "", employee_range := "", interviews := 10,
    returnUrl := "http://localhost:3000" }

/-- The session the boundary creates for `emptyProfileBody`. -/
def emptyProfileSession : CheckoutSession :=
  { quantity := 10, metadata := DEFAULT_CHECKOUT_VALUES }

/-- C10 witness: a request with all profile fields empty produces a
session whose metadata carries the four fixed defaults, all nonempty. -/
theorem checkout_metadata_defaults_witness :
    emptyProfileSession.metadata.role =
      (if emptyProfileBody.role = "" then "Software Engineer" else emptyProfileBody.role) ∧
    emptyProfileSession.metadata.industry =
      (if emptyProfileBody.industry = "" then "Technology, Information and Internet"
        else emptyProfileBody.industry) ∧
    emptyProfileSession.metadata.range =
      (if emptyProfileBody.range = "" then "2-7" else emptyProfileBody.range) ∧
    emptyProfileSession.metadata.employee_range =
      (if emptyProfileBody.employee_range = "" then "100-1000"
        else emptyProfileBody.employee_range) ∧
    emptyProfileSession.metadata.role ≠ "" ∧
    emptyProfileSession.metadata.industry ≠ "" ∧
    emptyProfileSession.metadata.range ≠ "" ∧
    emptyProfileSession.metadata.employee_range ≠ "" :=
  checkout_metadata_defaults emptyProfileBody emptyProfileSession rfl

/-! ## Export route theorems -/

/-- C5: an export request whose record list is empty is rejected by the
route with a status-400 validation error, for every requested format
(valid, absent, or unrecognized). -/
theorem export_empty_records_rejected (fmt : Option String) :
    ∃ msg, tablesPOST "interviews" fmt (.interviews []) = .err 400 msg := by
  cases fmt with
  | none => exact ⟨"At least one interview is required for export", rfl⟩
  | some f =>
    by_cases h0 : f = ""
    · subst h0
      exact ⟨"At least one interview is required for export", rfl⟩
    · by_cases h : f ∈ validFormatStrings
      · exact ⟨"At least one interview is required for export", by
          simp [tablesPOST, validateTableName, validateFormat, validateRequestBody,
            VALID_TABLES, h0, h, Bind.bind, Except.bind]⟩
      · exact ⟨"Unsupported format", by
          simp [tablesPOST, validateTableName, validateFormat, VALID_TABLES, h0, h,
            Bind.bind, Except.bind]⟩

/-- C6 counterexample: the empty string is a format value outside the
recognized set, yet the request `?format=` (whose parameter value is the
empty string, falsy in JavaScript) is answered with 200 `text/html`
rather than an error, refuting the claim that every request with an
unrecognized format value fails. -/
theorem empty_format_value_defaults_html :
    "" ∉ validFormatStrings ∧
    tablesPOST "interviews" (some "") (.interviews [sampleInterview "PM" "Tech"]) =
      .ok { status := 200, contentType := "text/html", contentDisposition := none,
            payload := .htmlText [sampleInterview "PM" "Tech"] } :=
  ⟨by decide, rfl⟩

/-- C6 amended: the format handling is asymmetric: an absent format
parameter — and likewise a present but empty (falsy) format value —
silently defaults to an HTML response (content type `text/html`), while
a nonempty unrecognized format value fails with a 400 error, and an
unknown table name fails with a 400 error. -/
theorem export_format_asymmetry :
    (∀ records : List Interview, records ≠ [] →
      tablesPOST "interviews" none (.interviews records) =
        .ok { status := 200, contentType := "text/html", contentDisposition := none,
              payload := .htmlText records } ∧
      tablesPOST "interviews" (some "") (.interviews records) =
        .ok { status := 200, contentType := "text/html", contentDisposition := none,
              payload := .htmlText records }) ∧
    (∀ f : String, f ≠ "" → f ∉ validFormatStrings → ∀ body : ExportBody,
      tablesPOST "interviews" (some f) body = .err 400 "Unsupported format") ∧
    (∀ t : String, t ∉ VALID_TABLES → ∀ fmt : Option String, ∀ body : ExportBody,
      ∃ msg, tablesPOST t fmt body = .err 400 msg) := by
  refine ⟨?_, ?_, ?_⟩
  · intro records h
    cases records with
    | nil => exact absurd rfl h
    | cons r rs => exact ⟨rfl, rfl⟩
  · intro f h0 hf body
    simp [tablesPOST, validateTableName, validateFormat, VALID_TABLES, h0, hf,
      Bind.bind, Except.bind]
  · intro t ht fmt body
    by_cases h0 : t = ""
    · exact ⟨"Table name is required", by
        simp [tablesPOST, validateTableName, h0, Bind.bind, Except.bind]⟩
    · exact ⟨"Table not found", by
        simp [tablesPOST, validateTableName, h0, ht, Bind.bind, Except.bind]⟩

/-- C6 amended witness: no format and an empty format value both default
to HTML; the nonempty format `pdf` errors; table `users` errors. -/
theorem export_format_asymmetry_witness :
    (tablesPOST "interviews" none (.interviews [sampleInterview "PM" "Tech"]) =
      .ok { status := 200, contentType := "text/html", contentDisposition := none,
            payload := .htmlText [sampleInterview "PM" "Tech"] } ∧
    tablesPOST "interviews" (some "") (.interviews [sampleInterview "PM" "Tech"]) =
      .ok { status := 200, contentType := "text/html", contentDisposition := none,
            payload := .htmlText [sampleInterview "PM" "Tech"] }) ∧
    tablesPOST "interviews" (some "pdf") (.interviews [sampleInterview "PM" "Tech"]) =
      .err 400 "Unsupported format" ∧
    ∃ msg, tablesPOST "users" none (.interviews [sampleInterview "PM" "Tech"]) =
      .err 400 msg :=
  ⟨export_format_asymmetry.1 _ (by simp),
    export_format_asymmetry.2.1 "pdf" (by decide) (by decide) _,
    export_format_asymmetry.2.2 "users" (by decide) none _⟩

/-- Parsing one serialized interview record recovers it. -/
theorem interviewFromJson_toJson (i : Interview) :
    interviewFromJson (interviewToJson i) = some i := rfl

/-- Parsing a serialized record list recovers the list. -/
theorem interviewsFromJsonList_map (records : List Interview) :
    interviewsFromJsonList (records.map interviewToJson) = some records := by
  induction records with
  | nil => rfl
  | cons r rs ih =>
    simp [interviewsFromJsonList, interviewFromJson_toJson, ih, Bind.bind, Option.bind]

/-- C7: exporting a nonempty record list with format `json` responds with
the JSON serialization of the list, and parsing that body back yields a
list equal field-for-field to the input, in order and of the same
length. -/
theorem json_export_round_trip (records : List Interview) (h : records ≠ []) :
    tablesPOST "interviews" (some "json") (.interviews records) =
      .ok { status := 200, contentType := "application/json",
            contentDisposition := none,
            payload := .jsonBody (interviewsToJson records) } ∧
    interviewsFromJson (interviewsToJson records) = some records ∧
    ∃ parsed, interviewsFromJson (interviewsToJson records) = some parsed ∧
      parsed.length = records.length := by
  have hrt : interviewsFromJson (interviewsToJson records) = some records := by
    simp [interviewsFromJson, interviewsToJson, interviewsFromJsonList_map]
  refine ⟨?_, hrt, records, hrt, rfl⟩
  cases records with
  | nil => exact absurd rfl h
  | cons r rs => rfl

/-- C7 witness: the round trip at a concrete two-record list. -/
theorem json_export_round_trip_witness :
    tablesPOST "interviews" (some "json")
        (.interviews [sampleInterview "PM" "Tech", sampleInterview "CTO" "Fin"]) =
      .ok { status := 200, contentType := "application/json",
            contentDisposition := none,
            payload := .jsonBody (interviewsToJson
              [sampleInterview "PM" "Tech", sampleInterview "CTO" "Fin"]) } ∧
    interviewsFromJson (interviewsToJson
        [sampleInterview "PM" "Tech", sampleInterview "CTO" "Fin"]) =
      some [sampleInterview "PM" "Tech", sampleInterview "CTO" "Fin"] ∧
    ∃ parsed, interviewsFromJson (interviewsToJson
        [sampleInterview "PM" "Tech", sampleInterview "CTO" "Fin"]) = some parsed ∧
      parsed.length =
        [sampleInterview "PM" "Tech", sampleInterview "CTO" "Fin"].length :=
  json_export_round_trip [sampleInterview "PM" "Tech", sampleInterview "CTO" "Fin"]
    (by simp)

/-! ## Export transport theorems -/

/-- On a remainder of the form `<name>"` where the name is nonempty and
contains no quote and no newline, the regex closes with exactly the
name as capture. -/
theorem closeCapture_wellFormed (name : List Char) (hne : name ≠ [])
    (h : ∀ c ∈ name, c ≠ dquote ∧ c ≠ '\n') :
    closeCapture (name ++ [dquote]) = some name := by
  unfold closeCapture
  have h1 : (name ++ [dquote]).takeWhile (fun c => decide (c ≠ '\n')) =
      name ++ [dquote] := by
    apply List.takeWhile_eq_self_iff.mpr
    intro c hc
    rcases List.mem_append.mp hc with hc | hc
    · simpa using (h c hc).2
    · simp at hc; subst hc; decide
  have h2 : (name ++ [dquote]).reverse = dquote :: name.reverse := by
    simp
  have h3 : (dquote :: name.reverse).dropWhile (fun c => decide (c ≠ dquote)) =
      dquote :: name.reverse := by
    rw [List.dropWhile_cons]
    simp
  simp only [h1, h2, h3]
  have h4 : name.reverse.isEmpty = false := by
    simp [List.isEmpty_iff, hne]
  simp [h4]

/-- On the server's header shape `attachment; filename="<name>"` with a
nonempty name free of quotes and newlines, the extractor returns the
name. -/
theorem extract_wellFormed (name : String) (hne : name ≠ "")
    (h : ∀ c ∈ name.toList, c ≠ dquote ∧ c ≠ '\n') :
    extractFilenameFromHeader
      ("attachment; filename=" ++ String.mk [dquote] ++ name ++ String.mk [dquote])
      "Interview" = name := by
  have hne' : name.toList ≠ [] := by
    intro h0
    apply hne
    cases name with
    | mk data =>
      simp [String.toList] at h0
      subst h0
      rfl
  unfold extractFilenameFromHeader
  have hl : ("attachment; filename=" ++ String.mk [dquote] ++ name ++
        String.mk [dquote]).toList =
      "attachment; filename=".toList ++ [dquote] ++ name.toList ++ [dquote] := by
    simp [String.toList]
  rw [hl]
  have key : execFilenameRegex
      ("attachment; filename=".toList ++ [dquote] ++ name.toList ++ [dquote]) =
      match closeCapture (name.toList ++ [dquote]) with
      | some cap => some cap
      | none =>
        execFilenameRegex
          ("ilename=".toList ++ [dquote] ++ name.toList ++ [dquote]) := rfl
  rw [key, closeCapture_wellFormed name.toList hne' h]
  rfl

/-- C8: the export transport fails with an error carrying the HTTP
status whenever the response is not ok; on success it extracts the
filename from a well-formed `Content-Disposition: attachment;
filename="<name>"` header, and falls back to the generic default
`Interview` when the header is absent or does not match the fixed
pattern. -/
theorem export_transport_contract :
    (∀ resp : HttpResponse, resp.ok = false →
      makeExportRequest resp =
        .error ("Export failed with status: " ++ toString resp.status)) ∧
    (∀ resp : HttpResponse, ∀ name : String, resp.ok = true →
      resp.contentDisposition =
        some ("attachment; filename=" ++ String.mk [dquote] ++ name ++
          String.mk [dquote]) →
      name ≠ "" → (∀ c ∈ name.toList, c ≠ dquote ∧ c ≠ '\n') →
      makeExportRequest resp = .ok (resp.blob, name)) ∧
    (∀ resp : HttpResponse, resp.ok = true → resp.contentDisposition = none →
      makeExportRequest resp = .ok (resp.blob, "Interview")) ∧
    (∀ resp : HttpResponse, ∀ hdr : String, resp.ok = true →
      resp.contentDisposition = some hdr → execFilenameRegex hdr.toList = none →
      makeExportRequest resp = .ok (resp.blob, "Interview")) := by
  refine ⟨?_, ?_, ?_, ?_⟩
  · intro resp h
    simp [makeExportRequest, h]
  · intro resp name hok hcd hne h
    simp [makeExportRequest, hok, hcd, extract_wellFormed name hne h]
  · intro resp hok hcd
    simp [makeExportRequest, hok, hcd]
    rfl
  · intro resp hdr hok hcd hregex
    simp [makeExportRequest, hok, hcd, extractFilenameFromHeader]
    rw [show hdr.data = hdr.toList from rfl, hregex]

/-- A concrete failing export response. -/
def respFail : HttpResponse :=
  { ok := false, status := 500, contentDisposition := none, blob := "b" }

/-- A concrete successful export response with a well-formed
`Content-Disposition` header. -/
def respWellFormed : HttpResponse :=
  { ok := true
    status := 200
    contentDisposition :=
      some ("attachment; filename=" ++ String.mk [dquote] ++ "Interviews.csv" ++
        String.mk [dquote])
    blob := "payload" }

/-- A concrete successful export response with no header. -/
def respNoHeader : HttpResponse :=
  { ok := true, status := 200, contentDisposition := none, blob := "payload" }

/-- A concrete successful export response with a malformed header. -/
def respMalformed : HttpResponse :=
  { ok := true, status := 200, contentDisposition := some "attachment", blob := "payload" }

/-- C8 witness: a 500 response fails with the status in the error; a
well-formed header yields `Interviews.csv`; an absent header and the
malformed header `attachment` both yield the default `Interview`. -/
theorem export_transport_contract_witness :
    makeExportRequest respFail =
      .error ("Export failed with status: " ++ toString 500) ∧
    makeExportRequest respWellFormed = .ok ("payload", "Interviews.csv") ∧
    makeExportRequest respNoHeader = .ok ("payload", "Interview") ∧
    makeExportRequest respMalformed = .ok ("payload", "Interview") :=
  ⟨export_transport_contract.1 respFail rfl,
    export_transport_contract.2.1 respWellFormed "Interviews.csv" rfl rfl
      (by decide) (by decide),
    export_transport_contract.2.2.1 respNoHeader rfl rfl,
    export_transport_contract.2.2.2 respMalformed "attachment" rfl rfl (by decide)⟩

/-! ## File delivery theorems -/

/-- C9: delivery either opens the payload in a new tab with URL
revocation deferred by a fixed 1000 ms timeout, or triggers a save-as
download under the given filename with the URL revoked immediately after
the click; and in `EXPORT_FORMATS` exactly the JSON and HTML entries take
the new-tab path while TXT, CSV and XLSX download. -/
theorem file_delivery_contract :
    (∀ blob : Blob, ∀ name : String,
      handleFileExport blob name true =
        [.createdObjectURL blob, .openedNewTab blob, .scheduledRevoke blob 1000] ∧
      handleFileExport blob name false =
        [.createdObjectURL blob, .clickedDownload blob name,
          .revokedObjectURL blob]) ∧
    (∀ e ∈ EXPORT_FORMATS, e.newTab = true ↔ (e.label = "JSON" ∨ e.label = "HTML")) := by
  constructor
  · intro blob name
    exact ⟨rfl, rfl⟩
  · decide

/-- C9 witness: the two delivery traces at a concrete payload, and the
delivery method of the JSON entry of `EXPORT_FORMATS`. -/
theorem file_delivery_contract_witness :
    (handleFileExport "payload" "Interviews.csv" true =
        [.createdObjectURL "payload", .openedNewTab "payload",
          .scheduledRevoke "payload" 1000] ∧
      handleFileExport "payload" "Interviews.csv" false =
        [.createdObjectURL "payload", .clickedDownload "payload" "Interviews.csv",
          .revokedObjectURL "payload"]) ∧
    ((⟨"JSON", "/api/tables/interviews?format=json", true⟩ :
        ExportFormatEntry).newTab = true ↔
      ((⟨"JSON", "/api/tables/interviews?format=json", true⟩ :
        ExportFormatEntry).label = "JSON" ∨
        (⟨"JSON", "/api/tables/interviews?format=json", true⟩ :
          ExportFormatEntry).label = "HTML")) :=
  ⟨file_delivery_contract.1 "payload" "Interviews.csv",
    file_delivery_contract.2
      ⟨"JSON", "/api/tables/interviews?format=json", true⟩ (by decide)⟩
